import Mathlib

/-!
Shallow embedding of the discord_tt backend
(`src/backend/src/discord_summarizer/`): the SQLite-backed message store
(`database.py`), the in-memory sync-state tracker (`sync_manager.py`), the
batched sync orchestrator (`sync_operations.py`), the channel summarizer
wrapper (`discord_api.py`) and the summarize / start-sync endpoints
(`main.py`).

Modelling conventions:
* SQLite tables keyed by a PRIMARY KEY column become association lists
  `List (String × Row)`; `INSERT OR REPLACE` becomes `dictInsert`, which
  replaces the value in place when the key is present and appends
  otherwise (like assignment into a Python dict, which also matches the
  keyed-table semantics because row order is only observed through
  explicitly ordered queries).
* Timestamps are chronological instants in integer seconds; every
  operation that reads the clock takes `now : Int` explicitly.
  `datetime('now', '-H hours')` becomes `now - 3600 * H` and
  `'-D days'` becomes `now - 86400 * D`.  The stored column values are
  TEXT and SQLite compares them byte-wise, so the semantics of a SQL
  comparison depends on the formats of its two operands: between two
  values of the same format (both space-separated SQLite `datetime(..)`
  renderings, or both 'T'-separated Python/Discord isoformat renderings)
  byte-wise order agrees with chronological order and is modelled by
  `Int` comparison; between an isoformat value and a space-format value
  the comparison degenerates to calendar-date granularity with the
  isoformat side winning ties — see `isoGtSpace` — and the two queries
  that mix formats (`get_cached_summary`, `get_recent_messages`) use
  that comparison.
* External I/O (Discord fetches, the OpenAI call) is passed in as data:
  an `Except` value describes whether the call raises or what it returns.
  Fallible storage writes inside `sync_channel`'s `try` block are modelled
  by optional injected error messages.
-/

namespace DiscordTT

/-- Association-list lookup by key (string-keyed table / Python dict read). -/
def lookupKV {α : Type} (k : String) : List (String × α) → Option α
  | [] => none
  | (k', v) :: rest => if k' = k then some v else lookupKV k rest

/-- `INSERT OR REPLACE` / Python dict assignment: replace the value in
place when the key exists, append otherwise. -/
def dictInsert {α : Type} (k : String) (v : α) : List (String × α) → List (String × α)
  | [] => [(k, v)]
  | (k', v') :: rest => if k' = k then (k', v) :: rest else (k', v') :: dictInsert k v rest

theorem lookupKV_dictInsert_self {α : Type} (k : String) (v : α) (l : List (String × α)) :
    lookupKV k (dictInsert k v l) = some v := by
  induction l with
  | nil => simp [dictInsert, lookupKV]
  | cons p rest ih =>
    obtain ⟨k', v'⟩ := p
    by_cases h : k' = k <;> simp [dictInsert, lookupKV, h, ih]

theorem lookupKV_dictInsert_ne {α : Type} {k k' : String} (v : α) (l : List (String × α))
    (h : k ≠ k') : lookupKV k (dictInsert k' v l) = lookupKV k l := by
  induction l with
  | nil =>
    simp only [dictInsert, lookupKV]
    rw [if_neg (Ne.symm h)]
  | cons p rest ih =>
    obtain ⟨k₀, v₀⟩ := p
    by_cases h₀ : k₀ = k'
    · subst h₀
      simp only [dictInsert, if_pos rfl, lookupKV]
      rw [if_neg (Ne.symm h), if_neg (Ne.symm h)]
    · simp only [dictInsert, if_neg h₀, lookupKV]
      by_cases h₁ : k₀ = k
      · rw [if_pos h₁, if_pos h₁]
      · rw [if_neg h₁, if_neg h₁, ih]

theorem lookupKV_dictInsert_isSome {α : Type} (k k' : String) (v : α) (l : List (String × α))
    (h : (lookupKV k l).isSome) : (lookupKV k (dictInsert k' v l)).isSome := by
  by_cases hk : k = k'
  · subst hk; simp [lookupKV_dictInsert_self]
  · rwa [lookupKV_dictInsert_ne v l hk]

/-- Lexicographic order on char lists by codepoint, modelling SQLite's
binary collation for `ORDER BY` on TEXT columns. -/
def charListLe : List Char → List Char → Bool
  | [], _ => true
  | _ :: _, [] => false
  | a :: as, b :: bs =>
    if a.toNat < b.toNat then true
    else if b.toNat < a.toNat then false
    else charListLe as bs

/-- SQLite binary-collation string comparison. -/
def strLe (a b : String) : Bool := charListLe a.data b.data

/-- Calendar-date prefix (UTC day number) of a chronological instant in
seconds: the day whose 'YYYY-MM-DD' rendering leads the stored text. -/
def tsDate (t : Int) : Int := t.fdiv 86400

/-- SQLite byte-wise TEXT comparison `a > b` where `a` was stored in
Python/Discord isoformat ('YYYY-MM-DDTHH:MM:SS.ffffff+00:00', 'T'
separator) and `b` in SQLite datetime format ('YYYY-MM-DD HH:MM:SS',
space separator).  The 10-byte date prefixes share a format and decide
the comparison when they differ; on equal dates the 11th byte decides,
and 'T' (0x54) sorts above ' ' (0x20), so the isoformat operand always
wins the tie.  The comparison is therefore true iff the calendar date of
`a` is at least the calendar date of `b` — date-granular, not
chronological. -/
def isoGtSpace (a b : Int) : Bool := decide (tsDate b ≤ tsDate a)

/-! ## Data model (`database.py` tables, §3 of the spec) -/

/-- Row of the `channels` table.  The `created_at` column (a SQLite
default timestamp) is never read by any query and is omitted. -/
structure ChannelRow where
  server_id : String
  name : String
deriving DecidableEq

/-- Row of the `messages` table (keyed by `message_id`). -/
structure MsgRow where
  channel_id : String
  author : String
  content : String
  timestamp : Int
deriving DecidableEq

/-- Row of the `channel_summaries` table (keyed by `channel_id`). -/
structure SummaryRow where
  summary : String
  message_count : Nat
  total_participants : Nat
  last_active : Int
  generated_at : Int
  message_window_start : Int
  message_window_end : Int
deriving DecidableEq

/-- The four keyed tables of `database.py`. -/
structure DiscordDB where
  channels : List (String × ChannelRow) := []
  messages : List (String × MsgRow) := []
  sync_status : List (String × Int) := []
  channel_summaries : List (String × SummaryRow) := []
deriving DecidableEq

/-- Incoming Discord message as consumed by `DiscordDB.add_messages`
(`msg['id']`, `msg['author']['username']`, `msg['content']`,
`msg['timestamp']`). -/
structure MsgAuthor where
  username : String
deriving DecidableEq

structure InMsg where
  id : String
  author : MsgAuthor
  content : String
  timestamp : Int
deriving DecidableEq

/-- Row shape returned by `get_recent_messages` (author, content, timestamp). -/
structure RecentMsg where
  author : String
  content : String
  timestamp : Int
deriving DecidableEq

/-- Row shape returned by `get_server_channels`: channel joined with its
`last_synced` when present. -/
structure ChannelListing where
  channel_id : String
  name : String
  last_synced : Option Int
deriving DecidableEq

/-- The per-channel summary dict built by `get_summary` in `main.py`
(also the `summary_data` argument handed to `DiscordDB.cache_summary`,
which reads only its first four fields). -/
structure SummaryEntry where
  summary : String
  message_count : Nat
  last_active : Int
  total_participants : Nat
  cache_status : String
  generated_at : Int
deriving DecidableEq

namespace DiscordDB

/-- `DiscordDB.add_channel`: `INSERT OR REPLACE INTO channels`. -/
def add_channel (db : DiscordDB) (channel_id server_id name : String) : DiscordDB :=
  { db with channels := dictInsert channel_id ⟨server_id, name⟩ db.channels }

/-- `DiscordDB.add_messages`: `executemany` of `INSERT OR REPLACE INTO
messages`, one insert per list element in order. -/
def add_messages (db : DiscordDB) (channel_id : String) (msgs : List InMsg) : DiscordDB :=
  { db with
    messages := msgs.foldl
      (fun ms m => dictInsert m.id ⟨channel_id, m.author.username, m.content, m.timestamp⟩ ms)
      db.messages }

/-- `DiscordDB.update_sync_status`: `INSERT OR REPLACE INTO sync_status
(channel_id, last_synced) VALUES (?, datetime('now'))`. -/
def update_sync_status (db : DiscordDB) (channel_id : String) (now : Int) : DiscordDB :=
  { db with sync_status := dictInsert channel_id now db.sync_status }

/-- `DiscordDB.get_recent_messages`: messages of the channel with
`timestamp > datetime('now', '-D days')`, ordered newest first.
Message timestamps are stored verbatim from Discord in isoformat while
the cutoff is a space-format SQLite datetime, so the SQL `>` is the
byte-wise cross-format comparison `isoGtSpace` (date-granular); the
`ORDER BY` compares isoformat against isoformat and stays
chronological. -/
def get_recent_messages (db : DiscordDB) (channel_id : String) (days : Int) (now : Int) :
    List RecentMsg :=
  let rows := db.messages.filter
    (fun p => p.2.channel_id = channel_id ∧ isoGtSpace p.2.timestamp (now - 86400 * days) = true)
  (rows.map (fun p => RecentMsg.mk p.2.author p.2.content p.2.timestamp)).insertionSort
    (fun a b => b.timestamp ≤ a.timestamp)

/-- `DiscordDB.needs_sync`: the query selects the sync row with
`last_synced > datetime('now', '-H hours')` and the function returns
whether no such row was found. -/
def needs_sync (db : DiscordDB) (channel_id : String) (max_age_hours : Int) (now : Int) :
    Bool :=
  match lookupKV channel_id db.sync_status with
  | none => true
  | some t => decide (¬ t > now - 3600 * max_age_hours)

/-- `DiscordDB.get_server_channels`: channels of the server, each with the
correlated-subquery `last_synced` (none when absent), `ORDER BY name`. -/
def get_server_channels (db : DiscordDB) (server_id : String) : List ChannelListing :=
  ((db.channels.filter (fun p => p.2.server_id = server_id)).map
    (fun p => ChannelListing.mk p.1 p.2.name (lookupKV p.1 db.sync_status))).insertionSort
    (fun a b => strLe a.name b.name = true)

/-- `DiscordDB.get_cached_summary`: `channel_summaries JOIN sync_status`
on `channel_id`, requiring `generated_at > datetime('now', '-H hours')`
and `generated_at > last_synced`; returns `cs.*` together with the joined
`last_synced`.  `generated_at` is stored by `cache_summary` in Python
isoformat while both the max-age cutoff and `last_synced` are
space-format SQLite datetimes, so both SQL comparisons are the byte-wise
cross-format `isoGtSpace` — validity is computed at calendar-date
granularity, not chronologically. -/
def get_cached_summary (db : DiscordDB) (channel_id : String) (max_age_hours : Int)
    (now : Int) : Option (SummaryRow × Int) :=
  match lookupKV channel_id db.channel_summaries, lookupKV channel_id db.sync_status with
  | some cs, some ls =>
    if isoGtSpace cs.generated_at (now - 3600 * max_age_hours) = true ∧
        isoGtSpace cs.generated_at ls = true
    then some (cs, ls) else none
  | _, _ => none

/-- `DiscordDB.cache_summary`: `INSERT OR REPLACE INTO channel_summaries`
taking `summary`, `message_count`, `total_participants` and `last_active`
from `summary_data` while stamping `generated_at = now`,
`message_window_start = now - 7 days`, `message_window_end = now`. -/
def cache_summary (db : DiscordDB) (channel_id : String) (summary_data : SummaryEntry)
    (now : Int) : DiscordDB :=
  { db with
    channel_summaries := dictInsert channel_id
      { summary := summary_data.summary
        message_count := summary_data.message_count
        total_participants := summary_data.total_participants
        last_active := summary_data.last_active
        generated_at := now
        message_window_start := now - 86400 * 7
        message_window_end := now }
      db.channel_summaries }

end DiscordDB

/-! ## Sync State Tracker (`sync_manager.py`) -/

/-- The per-server sync-state dict created by
`SyncStateManager.start_sync`.  `end_time` is only added by
`complete_sync` and `error` is only added by `perform_sync`'s failure
path, so both are optional. -/
structure SyncState where
  server_id : String
  start_time : Int
  status : String
  channels_total : Nat
  channels_completed : Nat
  channels_failed : Nat
  last_updated : Int
  errors : List String
  end_time : Option Int := none
  error : Option String := none
deriving DecidableEq

/-- In-memory registry `active_syncs`, keyed by server id. -/
structure SyncStateManager where
  active_syncs : List (String × SyncState) := []
deriving DecidableEq

/-- Keyword arguments accepted by `SyncStateManager.update_sync` at its
call sites in `sync_operations.py`; an absent field is an absent kwarg. -/
structure SyncUpdate where
  status : Option String := none
  channels_total : Option Nat := none
  channels_completed : Option Nat := none
  channels_failed : Option Nat := none
  errors : Option (List String) := none
  error : Option String := none

/-- `dict.update(kwargs)` on a sync-state entry. -/
def applyUpdate (st : SyncState) (u : SyncUpdate) : SyncState :=
  { st with
    status := u.status.getD st.status
    channels_total := u.channels_total.getD st.channels_total
    channels_completed := u.channels_completed.getD st.channels_completed
    channels_failed := u.channels_failed.getD st.channels_failed
    errors := u.errors.getD st.errors
    error := match u.error with | some e => some e | none => st.error }

namespace SyncStateManager

/-- `SyncStateManager.start_sync`: return the existing entry unchanged
when present, otherwise create and register a fresh `in_progress` entry.
Returns the entry together with the updated manager (the Python method
returns a live alias into `active_syncs`; readers of that alias are
modelled by looking the entry up again). -/
def start_sync (mgr : SyncStateManager) (server_id : String) (now : Int) :
    SyncState × SyncStateManager :=
  match lookupKV server_id mgr.active_syncs with
  | some st => (st, mgr)
  | none =>
    let sync_state : SyncState :=
      { server_id := server_id
        start_time := now
        status := "in_progress"
        channels_total := 0
        channels_completed := 0
        channels_failed := 0
        last_updated := now
        errors := [] }
    (sync_state, { active_syncs := dictInsert server_id sync_state mgr.active_syncs })

/-- `SyncStateManager.update_sync`: merge the kwargs into the entry and
refresh `last_updated`; no-op when the entry is absent. -/
def update_sync (mgr : SyncStateManager) (server_id : String) (u : SyncUpdate) (now : Int) :
    SyncStateManager :=
  match lookupKV server_id mgr.active_syncs with
  | none => mgr
  | some st =>
    { active_syncs :=
        dictInsert server_id { applyUpdate st u with last_updated := now } mgr.active_syncs }

/-- `SyncStateManager.complete_sync`: set `status = "completed"` and
`end_time = now`; no-op when the entry is absent.  (It does not refresh
`last_updated`.) -/
def complete_sync (mgr : SyncStateManager) (server_id : String) (now : Int) :
    SyncStateManager :=
  match lookupKV server_id mgr.active_syncs with
  | none => mgr
  | some st =>
    { active_syncs :=
        dictInsert server_id { st with status := "completed", end_time := some now }
          mgr.active_syncs }

/-- `SyncStateManager.get_sync_state`. -/
def get_sync_state (mgr : SyncStateManager) (server_id : String) : Option SyncState :=
  lookupKV server_id mgr.active_syncs

end SyncStateManager

/-! ## Start-sync endpoint (`main.py`, `GET /sync/{server_id}`) -/

/-- Response of the start-sync endpoint. -/
inductive StartSyncResponse where
  | alreadyRunning (state : SyncState)
  | started (server_id : String)
deriving DecidableEq

/-- The `/sync/{server_id}` endpoint: report `already_running` without
scheduling anything when the tracked state is `in_progress`, otherwise
schedule `perform_sync` as a background task (second component: whether
the background task was scheduled). -/
def start_sync (mgr : SyncStateManager) (server_id : String) : StartSyncResponse × Bool :=
  match mgr.get_sync_state server_id with
  | some current_state =>
    if current_state.status = "in_progress"
    then (.alreadyRunning current_state, false)
    else (.started server_id, true)
  | none => (.started server_id, true)

/-! ## Sync Orchestrator (`sync_operations.py`) -/

/-- Failure modes of `fetch_messages` in `discord_api.py`: a 403 raises
`PermissionError`, anything else raises some other exception.
`sync_channel` handles the two kinds in separate `except` clauses (they
differ only in log level), storing `str(e)` either way. -/
inductive FetchErr where
  | permissionDenied (message : String)
  | other (message : String)
deriving DecidableEq

/-- `str(e)` of a fetch failure. -/
def FetchErr.msg : FetchErr → String
  | .permissionDenied m => m
  | .other m => m

/-- Channel dict as returned by the Discord channel-list fetch; a missing
or falsy `id`/`name` is modelled by the empty string. -/
structure ChannelInfo where
  id : String
  name : String
deriving DecidableEq

/-- Behaviour of the external collaborators (and of the fallible storage
writes inside `sync_channel`'s `try` block) for one `perform_sync` run:
`fetchChannels` is the outcome of `fetch_channels(server_id)`,
`fetchMessages cid` the outcome of `fetch_messages(cid)`, and the two
`Err` fields inject storage-layer exceptions from `add_channel` /
`add_messages` (none = the write succeeds). -/
structure SyncEnv where
  fetchChannels : Except String (List ChannelInfo)
  fetchMessages : String → Except FetchErr (List InMsg)
  addChannelErr : String → Option String := fun _ => none
  addMessagesErr : String → Option String := fun _ => none

/-- The result dict built by `sync_channel`. -/
structure SyncResult where
  channel_id : String
  channel_name : String
  success : Bool
  error : Option String
  messages_synced : Nat
deriving DecidableEq

/-- `sync_channel`: fetch the channel's messages, then `add_channel`,
`add_messages`, `update_sync_status` in that order; any exception along
the way is caught (`PermissionError` and the generic case alike), recorded
in the result dict, and never propagated. -/
def sync_channel (env : SyncEnv) (db : DiscordDB) (channel_id channel_name server_id : String)
    (now : Int) : SyncResult × DiscordDB :=
  let base : SyncResult :=
    { channel_id := channel_id, channel_name := channel_name, success := false
      error := none, messages_synced := 0 }
  match env.fetchMessages channel_id with
  | .error e => ({ base with error := some e.msg }, db)
  | .ok messages =>
    match env.addChannelErr channel_id with
    | some e => ({ base with error := some e }, db)
    | none =>
      let db := db.add_channel channel_id server_id channel_name
      match env.addMessagesErr channel_id with
      | some e => ({ base with error := some e }, db)
      | none =>
        let db := db.add_messages channel_id messages
        let db := db.update_sync_status channel_id now
        ({ base with success := true, messages_synced := messages.length }, db)

/-- Structural worker for `chunks`: the fuel argument (initialised to the
list length, which strictly bounds the number of slices) only serves to
make the recursion structural and hence kernel-reducible; the middle
pattern is unreachable when the fuel is at least the list length. -/
def chunksGo {α : Type} (bs : Nat) : Nat → List α → List (List α)
  | _, [] => []
  | 0, rest => [rest]
  | fuel + 1, a :: rest => (a :: rest.take (bs - 1)) :: chunksGo bs fuel (rest.drop (bs - 1))

/-- `range(0, len(channels), batch_size)` slicing: consecutive chunks of
`bs` elements (the head plus `bs - 1` more), last chunk possibly short. -/
def chunks {α : Type} (bs : Nat) (l : List α) : List (List α) :=
  chunksGo bs l.length l

/-- Observable scheduling events of one `perform_sync` run: the results
of one awaited batch, and the fixed rate-limiting pause. -/
inductive SyncEvent where
  | batch (results : List SyncResult)
  | sleep
deriving DecidableEq

/-- One iteration of `perform_sync`'s result loop.  The Python loop reads
`state["channels_failed"]` etc. through the alias returned by
`start_sync`, which is the live entry in `active_syncs`, so the current
entry is looked up again here.  (`sync_channel` never raises, so
`asyncio.gather` never yields an `Exception` element and the
`isinstance(result, Exception)` arm is dead; likewise a failed result
always carries an error string, so the `result.get("error", "Unknown
error")` default is modelled by `Option.getD`.) -/
def processResult (server_id : String) (now : Int) (mgr : SyncStateManager)
    (result : SyncResult) : SyncStateManager :=
  match lookupKV server_id mgr.active_syncs with
  | none => mgr
  | some state =>
    if result.success then
      mgr.update_sync server_id { channels_completed := some (state.channels_completed + 1) } now
    else
      mgr.update_sync server_id
        { channels_failed := some (state.channels_failed + 1)
          errors := some (state.errors ++ [result.error.getD "Unknown error"]) } now

/-- One batch iteration: build the tasks for channels with non-empty id
and name, await them (their DB effects are linearized in task order),
fold the results into the tracker, and sleep once. -/
def processBatch (env : SyncEnv) (server_id : String) (now : Int)
    (acc : SyncStateManager × DiscordDB × List SyncEvent) (channel_batch : List ChannelInfo) :
    SyncStateManager × DiscordDB × List SyncEvent :=
  let (mgr, db, trace) := acc
  let valid := channel_batch.filter (fun c => ¬ (c.id = "" ∨ c.name = ""))
  let (results, db') := valid.foldl
    (fun (p : List SyncResult × DiscordDB) c =>
      let (r, db') := sync_channel env p.2 c.id c.name server_id now
      (p.1 ++ [r], db'))
    ([], db)
  let mgr' := results.foldl (processResult server_id now) mgr
  (mgr', db', trace ++ [.batch results, .sleep])

/-- The body of `perform_sync`'s `try` block: fetch the channel list
(the only statement in the model that can raise), record
`channels_total`, then process the channels in batches of 5; on an
escaping exception, record `status="failed"` and the stray `error` kwarg. -/
def perform_sync_body (env : SyncEnv) (server_id : String) (mgr : SyncStateManager)
    (db : DiscordDB) (now : Int) : SyncStateManager × DiscordDB × List SyncEvent :=
  match env.fetchChannels with
  | .error e => (mgr.update_sync server_id { status := some "failed", error := some e } now, db, [])
  | .ok channels =>
    let mgr := mgr.update_sync server_id { channels_total := some channels.length } now
    (chunks 5 channels).foldl (processBatch env server_id now) (mgr, db, [])

/-- `perform_sync`: `start_sync`, the `try` block, then an unconditional
`complete_sync`. -/
def perform_sync (env : SyncEnv) (server_id : String) (mgr : SyncStateManager)
    (db : DiscordDB) (now : Int) : SyncStateManager × DiscordDB × List SyncEvent :=
  let mgr := (mgr.start_sync server_id now).2
  let (mgr, db, trace) := perform_sync_body env server_id mgr db now
  (mgr.complete_sync server_id now, db, trace)

/-! ## Channel summarizer (`discord_api.py`) and summarize endpoint (`main.py`) -/

/-- `summarize_channel` in `discord_api.py`: return `None` on an empty
message list; otherwise call the OpenAI API (its behaviour is the
`call_api` argument: `.ok r` = the call returns `r`, `.error e` = the
call raises with `str(e) = e`).  A raised exception is caught, logged,
and turned into the string `"Error summarizing channel: " ++ e` — the
function itself never raises.  The prompt text built from `messages` and
`channel_name` only feeds the external call and is not modelled. -/
def summarize_channel (call_api : Except String String) (messages : List RecentMsg)
    (channel_name : String) : Option String :=
  if messages.isEmpty then none
  else
    match call_api with
    | .ok response => some response
    | .error e => some ("Error summarizing channel: " ++ e)

/-- Loop state of `get_summary`'s per-channel loop.  `api_calls` is a
ghost accumulator recording the channels for which the external
summarizer was actually invoked; it influences nothing. -/
structure SummCtx where
  channel_summaries : List (String × SummaryEntry)
  cache_hits : Nat
  cache_misses : Nat
  db : DiscordDB
  api_calls : List String
deriving DecidableEq

/-- One iteration of `get_summary`'s channel loop (`main.py`): try the
cached summary first (max age 24 h); on a miss, load the last 7 days of
messages, skip the channel when there are none, otherwise invoke the
summarizer (`summ_api name` is the OpenAI outcome for that call), skip
when the returned summary is falsy (`None` or empty), and otherwise cache
it and record it in the response dict keyed by channel **name**. -/
def process_channel (summ_api : String → Except String String) (now : Int)
    (ctx : SummCtx) (channel : ChannelListing) : SummCtx :=
  match ctx.db.get_cached_summary channel.channel_id 24 now with
  | some (cached_summary, _) =>
    { ctx with
      channel_summaries := dictInsert channel.name
        { summary := cached_summary.summary
          message_count := cached_summary.message_count
          last_active := cached_summary.last_active
          total_participants := cached_summary.total_participants
          cache_status := "hit"
          generated_at := cached_summary.generated_at } ctx.channel_summaries
      cache_hits := ctx.cache_hits + 1 }
  | none =>
    let recent_messages := ctx.db.get_recent_messages channel.channel_id 7 now
    if recent_messages.isEmpty then ctx
    else
      let ctx := { ctx with api_calls := ctx.api_calls ++ [channel.name] }
      match summarize_channel (summ_api channel.name) recent_messages channel.name with
      | none => ctx
      | some summary =>
        if summary = "" then ctx
        else
          let last_active := match recent_messages with
            | [] => 0
            | m :: rest => rest.foldl (fun a x => max a x.timestamp) m.timestamp
          let summary_data : SummaryEntry :=
            { summary := summary
              message_count := recent_messages.length
              last_active := last_active
              total_participants := (recent_messages.map (fun m => m.author)).dedup.length
              cache_status := "miss"
              generated_at := now }
          { ctx with
            db := ctx.db.cache_summary channel.channel_id summary_data now
            channel_summaries := dictInsert channel.name summary_data ctx.channel_summaries
            cache_misses := ctx.cache_misses + 1 }

/-- The aggregate response of `GET /summarize/{server_id}`.  The
no-channels early return carries the `sync_status` hint and no cache
metrics; that case is modelled with zeroed metrics. -/
structure SummaryResponse where
  server_id : String
  channels : List (String × SummaryEntry)
  total_channels_analyzed : Nat
  active_channels : Nat
  cache_hits : Nat
  cache_misses : Nat
  hit_ratio : ℚ
  sync_status : Option String
deriving DecidableEq

/-- `get_summary` (`main.py`): iterate the server's channels (ordered by
name), resolving each against the cache via `process_channel`.  Returns
the response, the updated store, and the ghost list of channels for which
the external summarizer was invoked. -/
def get_summary (summ_api : String → Except String String) (db : DiscordDB)
    (server_id : String) (now : Int) : SummaryResponse × DiscordDB × List String :=
  let channels := db.get_server_channels server_id
  if channels.isEmpty then
    ({ server_id := server_id, channels := [], total_channels_analyzed := 0
       active_channels := 0, cache_hits := 0, cache_misses := 0, hit_ratio := 0
       sync_status := some "No cached data available. Please run /sync first." }, db, [])
  else
    let ctx := channels.foldl (process_channel summ_api now)
      { channel_summaries := [], cache_hits := 0, cache_misses := 0, db := db, api_calls := [] }
    ({ server_id := server_id
       channels := ctx.channel_summaries
       total_channels_analyzed := channels.length
       active_channels := ctx.channel_summaries.length
       cache_hits := ctx.cache_hits
       cache_misses := ctx.cache_misses
       hit_ratio :=
         if ctx.cache_hits + ctx.cache_misses > 0 then
           (ctx.cache_hits : ℚ) / ((ctx.cache_hits : ℚ) + (ctx.cache_misses : ℚ))
         else 0
       sync_status := none }, ctx.db, ctx.api_calls)

/-! ## Claims -/

/-- Store for the C1 failing input: the summary was generated at day-1
00:00 (86400 s) — 25 hours before the query at day-2 01:00 (176400 s)
and two hours before the channel's last sync at day-1 02:00 (93600 s). -/
def c1db : DiscordDB :=
  { sync_status := [("c", 93600)]
    channel_summaries :=
      [("c", { summary := "s", message_count := 1, total_participants := 1, last_active := 90000
               generated_at := 86400, message_window_start := 0, message_window_end := 86400 })] }

/-- C1: the claimed validity predicate ("`generated_at` newer than
`now - maxAgeHours` and newer than `last_synced`") is the function's own
documented intent, but the code violates it: here the stored row is
returned even though `generated_at` (day-1 00:00) is chronologically
older than both the 24-hour cutoff (day-1 01:00) and the channel's
`last_synced` (day-1 02:00), because SQLite compares the isoformat
`generated_at` byte-wise against the space-format operands and matching
calendar dates make both comparisons true regardless of time. -/
theorem C1_stale_summary_served :
    c1db.get_cached_summary "c" 24 176400
      = some ({ summary := "s", message_count := 1, total_participants := 1
                last_active := 90000, generated_at := 86400, message_window_start := 0
                message_window_end := 86400 }, 93600) ∧
    (86400 : Int) < 176400 - 3600 * 24 ∧
    (86400 : Int) < 93600 := by decide

/-- Summary payload written in the C2 failing run. -/
def c2sd : SummaryEntry :=
  { summary := "s", message_count := 3, last_active := 86000, total_participants := 2
    cache_status := "miss", generated_at := 86500 }

/-- C2: the claim (the spec's invalidation invariant) is the evident
intent, but the code violates it: writing the cache at 86500 s (day-1
00:01:40) and then re-syncing the channel at the strictly later 86600 s
does **not** make the next lookup (at 86700 s with a 24-hour max age)
return absent — the row is still served, because the isoformat
`generated_at` compares byte-wise above the space-format `last_synced`
whenever the two share a calendar date; the resync only invalidates the
cache when it crosses a UTC date boundary. -/
theorem C2_same_date_resync_served :
    DiscordDB.get_cached_summary
      ((DiscordDB.cache_summary {} "c" c2sd 86500).update_sync_status "c" 86600)
      "c" 24 86700
      = some ({ summary := "s", message_count := 3, total_participants := 2
                last_active := 86000, generated_at := 86500
                message_window_start := 86500 - 86400 * 7
                message_window_end := 86500 }, 86600) ∧
    (86500 : Int) < 86600 := by decide

/-- Store used in the C8 boundary counterexample: the channel was synced
exactly at the max-age cutoff (`last_synced = 0`, queried at `now = 3600`
with a 1-hour max age, so the cutoff is `3600 - 3600 * 1 = 0`). -/
def c8db : DiscordDB := { sync_status := [("c", 0)] }

/-- C8 counterexample: with `last_synced` exactly equal to
`now - maxAgeHours`, `needsSync` returns true although a SyncStatus row
exists and `last_synced` is not strictly older than the cutoff (the
cutoff `3600 - 3600 * 1` is at most `last_synced = 0`), so the claimed
"if and only if" (no row, or `last_synced` strictly older than
`now - maxAgeHours`) fails at this input. -/
theorem C8_needs_sync_counterexample :
    c8db.needs_sync "c" 1 3600 = true ∧
    lookupKV "c" c8db.sync_status = some 0 ∧
    ((3600 - 3600 * 1 : Int) ≤ 0) := by decide

/-- C8 (amended): `needsSync(channel_id, maxAgeHours)` is true iff no
SyncStatus row exists for the channel or its `last_synced` is **not
newer** than `now - maxAgeHours` (the SQL compares with `>`, so equality
with the cutoff also triggers a sync); it is true for a never-synced
channel, false immediately after `markSynced` (for a positive max age),
and true again once time advances strictly past `maxAgeHours` without
another sync. -/
theorem C8_needs_sync_amended (db : DiscordDB) (channel_id : String)
    (max_age_hours now : Int) :
    (db.needs_sync channel_id max_age_hours now = true ↔
      (lookupKV channel_id db.sync_status = none ∨
       ∃ t, lookupKV channel_id db.sync_status = some t ∧ t ≤ now - 3600 * max_age_hours)) ∧
    (lookupKV channel_id db.sync_status = none →
      db.needs_sync channel_id max_age_hours now = true) ∧
    (0 < max_age_hours →
      (db.update_sync_status channel_id now).needs_sync channel_id max_age_hours now = false) ∧
    (∀ later, now + 3600 * max_age_hours < later →
      (db.update_sync_status channel_id now).needs_sync channel_id max_age_hours later = true) := by
  have hupd :
      ∀ t', (db.update_sync_status channel_id now).needs_sync channel_id max_age_hours t'
        = decide (¬ now > t' - 3600 * max_age_hours) := by
    intro t'
    unfold DiscordDB.needs_sync
    rw [show (db.update_sync_status channel_id now).sync_status
          = dictInsert channel_id now db.sync_status from rfl,
        lookupKV_dictInsert_self]
  refine ⟨?_, ?_, ?_, ?_⟩
  · unfold DiscordDB.needs_sync
    rcases h : lookupKV channel_id db.sync_status with _ | t
    · simp
    · simp only [decide_eq_true_eq, Option.some.injEq]
      constructor
      · intro hnot
        exact Or.inr ⟨t, rfl, not_lt.mp hnot⟩
      · rintro (hno | ⟨t', ht', hle⟩)
        · cases hno
        · exact not_lt.mpr (ht' ▸ hle)
  · intro h
    unfold DiscordDB.needs_sync
    rw [h]
  · intro hpos
    rw [hupd now, decide_eq_false_iff_not, not_not]
    omega
  · intro later hlater
    rw [hupd later, decide_eq_true_eq]
    omega

/-- C8 witness: the amended predicate evaluated concretely — never-synced
is true, right after a sync it is false, and an hour plus one second
later it is true again. -/
theorem C8_needs_sync_amended_witness :
    DiscordDB.needs_sync {} "c" 1 1000 = true ∧
    (DiscordDB.update_sync_status {} "c" 1000).needs_sync "c" 1 1000 = false ∧
    (DiscordDB.update_sync_status {} "c" 1000).needs_sync "c" 1 4601 = true :=
  ⟨(C8_needs_sync_amended {} "c" 1 1000).2.1 (by decide),
   (C8_needs_sync_amended {} "c" 1 1000).2.2.1 (by decide),
   (C8_needs_sync_amended {} "c" 1 1000).2.2.2 4601 (by decide)⟩

/-- C6: `startSync` is idempotent on existing entries — whenever an entry
for the server already exists (regardless of status), it is returned
unchanged and the registry is not modified; consequently a second sync
trigger while that entry is `in_progress` reports `already_running` and
schedules no background run, so no second SyncJobState is created and no
channel counter is touched. -/
theorem C6_start_sync_idempotent (mgr : SyncStateManager) (server_id : String)
    (st : SyncState) (now : Int)
    (hex : lookupKV server_id mgr.active_syncs = some st) :
    mgr.start_sync server_id now = (st, mgr) ∧
    (st.status = "in_progress" →
      start_sync mgr server_id = (.alreadyRunning st, false)) := by
  constructor
  · unfold SyncStateManager.start_sync
    rw [hex]
  · intro hstat
    unfold start_sync SyncStateManager.get_sync_state
    rw [hex]
    dsimp only
    rw [if_pos hstat]

/-- Tracker entry and registry used to witness C6: one `in_progress` run. -/
def c6state : SyncState :=
  { server_id := "s", start_time := 0, status := "in_progress", channels_total := 3
    channels_completed := 1, channels_failed := 0, last_updated := 5, errors := [] }

def c6mgr : SyncStateManager := { active_syncs := [("s", c6state)] }

/-- C6 witness: a concrete second trigger while a run is in progress. -/
theorem C6_start_sync_idempotent_witness :
    SyncStateManager.start_sync c6mgr "s" 99 = (c6state, c6mgr) ∧
    start_sync c6mgr "s" = (.alreadyRunning c6state, false) :=
  ⟨(C6_start_sync_idempotent c6mgr "s" c6state 99 (by decide)).1,
   (C6_start_sync_idempotent c6mgr "s" c6state 99 (by decide)).2 rfl⟩

/-! Tracker-entry preservation lemmas used for C4: once `start_sync` has
registered an entry for the server, nothing in a run ever removes it. -/

theorem lookup_start_sync_isSome (mgr : SyncStateManager) (sid : String) (now : Int) :
    (lookupKV sid (mgr.start_sync sid now).2.active_syncs).isSome := by
  unfold SyncStateManager.start_sync
  rcases h : lookupKV sid mgr.active_syncs with _ | st
  · dsimp only
    rw [lookupKV_dictInsert_self]
    rfl
  · dsimp only
    rw [h]
    rfl

theorem lookup_update_sync_isSome (mgr : SyncStateManager) (sid sid' : String)
    (u : SyncUpdate) (now : Int) (h : (lookupKV sid mgr.active_syncs).isSome) :
    (lookupKV sid (mgr.update_sync sid' u now).active_syncs).isSome := by
  unfold SyncStateManager.update_sync
  rcases h' : lookupKV sid' mgr.active_syncs with _ | st
  · exact h
  · exact lookupKV_dictInsert_isSome _ _ _ _ h

theorem lookup_processResult_isSome (sid : String) (now : Int) (mgr : SyncStateManager)
    (r : SyncResult) (h : (lookupKV sid mgr.active_syncs).isSome) :
    (lookupKV sid (processResult sid now mgr r).active_syncs).isSome := by
  unfold processResult
  rcases h' : lookupKV sid mgr.active_syncs with _ | st
  · exact h
  · dsimp only
    split_ifs <;> exact lookup_update_sync_isSome _ _ _ _ _ h

theorem lookup_foldl_processResult_isSome (sid : String) (now : Int)
    (results : List SyncResult) (mgr : SyncStateManager)
    (h : (lookupKV sid mgr.active_syncs).isSome) :
    (lookupKV sid (results.foldl (processResult sid now) mgr).active_syncs).isSome := by
  induction results generalizing mgr with
  | nil => exact h
  | cons r rs ih => exact ih _ (lookup_processResult_isSome _ _ _ _ h)

theorem lookup_processBatch_isSome (env : SyncEnv) (sid : String) (now : Int)
    (acc : SyncStateManager × DiscordDB × List SyncEvent) (batch : List ChannelInfo)
    (h : (lookupKV sid acc.1.active_syncs).isSome) :
    (lookupKV sid (processBatch env sid now acc batch).1.active_syncs).isSome := by
  obtain ⟨mgr, db, tr⟩ := acc
  unfold processBatch
  dsimp only
  exact lookup_foldl_processResult_isSome _ _ _ _ h

theorem lookup_foldl_processBatch_isSome (env : SyncEnv) (sid : String) (now : Int)
    (batches : List (List ChannelInfo)) (acc : SyncStateManager × DiscordDB × List SyncEvent)
    (h : (lookupKV sid acc.1.active_syncs).isSome) :
    (lookupKV sid (batches.foldl (processBatch env sid now) acc).1.active_syncs).isSome := by
  induction batches generalizing acc with
  | nil => exact h
  | cons b bs ih => exact ih _ (lookup_processBatch_isSome _ _ _ _ _ h)

theorem lookup_body_isSome (env : SyncEnv) (sid : String) (mgr : SyncStateManager)
    (db : DiscordDB) (now : Int) (h : (lookupKV sid mgr.active_syncs).isSome) :
    (lookupKV sid (perform_sync_body env sid mgr db now).1.active_syncs).isSome := by
  unfold perform_sync_body
  rcases hf : env.fetchChannels with e | channels
  · dsimp only
    exact lookup_update_sync_isSome _ _ _ _ _ h
  · dsimp only
    exact lookup_foldl_processBatch_isSome _ _ _ _ _
      (lookup_update_sync_isSome _ _ _ _ _ h)

theorem complete_sync_lookup (mgr : SyncStateManager) (sid : String) (now : Int)
    (h : (lookupKV sid mgr.active_syncs).isSome) :
    ∃ st, lookupKV sid (mgr.complete_sync sid now).active_syncs = some st ∧
      st.status = "completed" ∧ st.end_time = some now := by
  unfold SyncStateManager.complete_sync
  rcases h' : lookupKV sid mgr.active_syncs with _ | st
  · rw [h'] at h
    cases h
  · dsimp only
    exact ⟨_, lookupKV_dictInsert_self .., rfl, rfl⟩

/-- C4: after `perform_sync` finishes, the server's tracker entry exists
with `status = "completed"` and `end_time` set, for every environment —
including a run whose channel-list fetch raised: there the failure path
inside the `try` block leaves the entry at `status = "failed"`, and the
unconditional final `complete_sync` overwrites it back to `"completed"`. -/
theorem C4_perform_sync_always_completes (env : SyncEnv) (server_id : String)
    (mgr : SyncStateManager) (db : DiscordDB) (now : Int) :
    (∃ st, lookupKV server_id (perform_sync env server_id mgr db now).1.active_syncs
        = some st ∧ st.status = "completed" ∧ st.end_time = some now) ∧
    (∀ e, env.fetchChannels = .error e →
      ∃ st, lookupKV server_id
          (perform_sync_body env server_id (mgr.start_sync server_id now).2 db
            now).1.active_syncs
        = some st ∧ st.status = "failed") := by
  have h0 := lookup_start_sync_isSome mgr server_id now
  constructor
  · have h1 := lookup_body_isSome env server_id _ db now h0
    exact complete_sync_lookup _ server_id now h1
  · intro e he
    unfold perform_sync_body
    rw [he]
    dsimp only
    obtain ⟨st0, hst0⟩ := Option.isSome_iff_exists.mp h0
    unfold SyncStateManager.update_sync
    rw [hst0]
    dsimp only
    exact ⟨_, lookupKV_dictInsert_self .., rfl⟩

/-- Environment used to witness C4: the channel-list fetch raises. -/
def c4env : SyncEnv :=
  { fetchChannels := .error "fetch boom", fetchMessages := fun _ => .ok [] }

/-- C4 witness: on a concrete run whose channel-list fetch raised, the
try-block leaves the entry `failed`, yet the final state is `completed`
with an end time. -/
theorem C4_perform_sync_always_completes_witness :
    (∃ st, lookupKV "s" (perform_sync c4env "s" {} {} 7).1.active_syncs = some st ∧
      st.status = "completed" ∧ st.end_time = some 7) ∧
    (∃ st, lookupKV "s"
        (perform_sync_body c4env "s" (SyncStateManager.start_sync {} "s" 7).2 {} 7).1.active_syncs
      = some st ∧ st.status = "failed") :=
  ⟨(C4_perform_sync_always_completes c4env "s" {} {} 7).1,
   (C4_perform_sync_always_completes c4env "s" {} {} 7).2 "fetch boom" rfl⟩

/-- C9: in a per-channel sync, the channel's `last_synced` is written
only after the message fetch, the channel upsert and the message upsert
have all succeeded; if any of those steps raises, the channel's
`last_synced` is left unchanged and the failure is recorded in the
returned result (success flag cleared, error message set) instead of
being propagated. -/
theorem C9_sync_channel_marks_synced_last (env : SyncEnv) (db : DiscordDB)
    (channel_id channel_name server_id : String) (now : Int) :
    ((∃ e, env.fetchMessages channel_id = .error e) ∨
        (env.addChannelErr channel_id).isSome = true ∨
        (env.addMessagesErr channel_id).isSome = true →
      (sync_channel env db channel_id channel_name server_id now).1.success = false ∧
      (sync_channel env db channel_id channel_name server_id now).1.error.isSome = true ∧
      lookupKV channel_id
          (sync_channel env db channel_id channel_name server_id now).2.sync_status
        = lookupKV channel_id db.sync_status) ∧
    ((sync_channel env db channel_id channel_name server_id now).1.success = true →
      lookupKV channel_id
          (sync_channel env db channel_id channel_name server_id now).2.sync_status
        = some now ∧
      (∃ msgs, env.fetchMessages channel_id = .ok msgs) ∧
      env.addChannelErr channel_id = none ∧ env.addMessagesErr channel_id = none) := by
  unfold sync_channel
  rcases hf : env.fetchMessages channel_id with e | msgs
  · dsimp only
    exact ⟨fun _ => ⟨rfl, rfl, rfl⟩, fun h => by cases h⟩
  · rcases hc : env.addChannelErr channel_id with _ | ce
    · rcases hm : env.addMessagesErr channel_id with _ | me
      · dsimp only
        refine ⟨?_, fun _ => ⟨lookupKV_dictInsert_self .., ⟨msgs, rfl⟩, rfl, rfl⟩⟩
        rintro (⟨e, he⟩ | h | h)
        · cases he
        · cases h
        · cases h
      · dsimp only
        exact ⟨fun _ => ⟨rfl, rfl, rfl⟩, fun h => by cases h⟩
    · dsimp only
      exact ⟨fun _ => ⟨rfl, rfl, rfl⟩, fun h => by cases h⟩

/-- Environment and store used to witness C9: the message fetch raises. -/
def c9env : SyncEnv :=
  { fetchChannels := .ok [], fetchMessages := fun _ => .error (.other "db down") }

def c9db : DiscordDB := { sync_status := [("c", 5)] }

/-- C9 witness: on a concrete failing fetch the result records the
failure and `last_synced` keeps its old value. -/
theorem C9_sync_channel_marks_synced_last_witness :
    (sync_channel c9env c9db "c" "general" "s" 9).1.success = false ∧
    lookupKV "c" (sync_channel c9env c9db "c" "general" "s" 9).2.sync_status = some 5 :=
  ⟨((C9_sync_channel_marks_synced_last c9env c9db "c" "general" "s" 9).1
      (Or.inl ⟨.other "db down", rfl⟩)).1,
   (((C9_sync_channel_marks_synced_last c9env c9db "c" "general" "s" 9).1
      (Or.inl ⟨.other "db down", rfl⟩)).2.2).trans (by decide)⟩

/-- Seven channels (all with non-empty id and name) for the C7 scenario. -/
def c7channels : List ChannelInfo :=
  [⟨"c1", "n1"⟩, ⟨"c2", "n2"⟩, ⟨"c3", "n3"⟩, ⟨"c4", "n4"⟩,
   ⟨"c5", "n5"⟩, ⟨"c6", "n6"⟩, ⟨"c7", "n7"⟩]

/-- Environment for the C7 scenario: the third channel of the first batch
raises `PermissionError`, every other message fetch succeeds. -/
def c7env : SyncEnv :=
  { fetchChannels := .ok c7channels
    fetchMessages := fun cid =>
      if cid = "c3" then .error (.permissionDenied "Access denied for channel ID: c3")
      else .ok [] }

/-- Expected awaited results of the first batch (channels 1-5; channel 3
fails with the permission error, the other four succeed). -/
def c7batch1 : List SyncResult :=
  [⟨"c1", "n1", true, none, 0⟩, ⟨"c2", "n2", true, none, 0⟩,
   ⟨"c3", "n3", false, some "Access denied for channel ID: c3", 0⟩,
   ⟨"c4", "n4", true, none, 0⟩, ⟨"c5", "n5", true, none, 0⟩]

/-- Expected awaited results of the second batch (channels 6-7). -/
def c7batch2 : List SyncResult :=
  [⟨"c6", "n6", true, none, 0⟩, ⟨"c7", "n7", true, none, 0⟩]

/-- C7: running `perform_sync` over 7 channels with batch size 5 schedules
exactly two batches, of 5 and then 2 channels, with exactly one pause
between them (the trace shows a single sleep separating the two batch
events; the loop also sleeps once more after the final batch); channel 3
of batch 1 raising `PermissionDenied` makes `channels_failed` end at
exactly 1 with its error message appended to the error list, while the
other 4 channels of that batch (and the 2 of batch 2) still complete,
leaving `channels_completed = 6` of `channels_total = 7`. -/
theorem C7_batching_scenario :
    (perform_sync c7env "s" {} {} 0).2.2
      = [.batch c7batch1, .sleep, .batch c7batch2, .sleep] ∧
    c7batch1.length = 5 ∧ c7batch2.length = 2 ∧
    c7batch1.countP (fun r => r.success) = 4 ∧
    chunks 5 c7channels = [c7channels.take 5, c7channels.drop 5] ∧
    lookupKV "s" (perform_sync c7env "s" {} {} 0).1.active_syncs
      = some { server_id := "s", start_time := 0, status := "completed", channels_total := 7
               channels_completed := 6, channels_failed := 1, last_updated := 0
               errors := ["Access denied for channel ID: c3"], end_time := some 0
               error := none } := by
  refine ⟨?_, rfl, rfl, rfl, ?_, ?_⟩ <;> decide

/-- Error strings produced by `summarize_channel`'s `except` branch are
never empty, so they pass the `if summary:` truthiness check upstream. -/
theorem err_prefix_ne_empty (e : String) : ("Error summarizing channel: " ++ e) ≠ "" := by
  intro h
  have h' := congrArg String.length h
  rw [String.length_append] at h'
  have h27 : ("Error summarizing channel: " : String).length = 27 := rfl
  have h0 : ("" : String).length = 0 := rfl
  rw [h27, h0] at h'
  omega

/-- Store for the C3 counterexample: one channel with a recent message,
no cached summary. -/
def c3db : DiscordDB :=
  { channels := [("c1", ⟨"s", "general"⟩)]
    messages := [("m1", ⟨"c1", "alice", "hi", 100⟩)]
    sync_status := [("c1", 50)] }

/-- C3 counterexample summarizer behaviour: the OpenAI call raises. -/
def c3api : String → Except String String := fun _ => .error "boom"

/-- C3 counterexample: when the external summarizer call raises, the
channel is **not** omitted from the response — `summarize_channel`
catches the exception and returns the non-empty string
`"Error summarizing channel: boom"`, which `get_summary` counts as a
cache miss, stores in the summary cache, and returns as the channel's
summary. -/
theorem C3_counterexample :
    lookupKV "general" (get_summary c3api c3db "s" 200).1.channels
      = some { summary := "Error summarizing channel: boom", message_count := 1
               last_active := 100, total_participants := 1, cache_status := "miss"
               generated_at := 200 } ∧
    (lookupKV "c1" (get_summary c3api c3db "s" 200).2.1.channel_summaries).isSome = true ∧
    (get_summary c3api c3db "s" 200).1.cache_misses = 1 := by
  refine ⟨?_, ?_, ?_⟩ <;> decide

/-- C3 (amended): for a channel with no valid cached summary and a
non-empty recent-message window whose external summarizer call raises,
the error is caught and logged inside `summarize_channel`, which returns
the string `"Error summarizing channel: <e>"`; being non-empty, that
string is treated by `get_summary` as a generated summary — the channel
appears in the response with that string (tagged as a miss) and the
string is cached — and the request as a whole still succeeds. -/
theorem C3_summarizer_error_not_skipped (summ_api : String → Except String String)
    (now : Int) (ctx : SummCtx) (channel : ChannelListing) (e : String)
    (hmiss : ctx.db.get_cached_summary channel.channel_id 24 now = none)
    (hrecent : (ctx.db.get_recent_messages channel.channel_id 7 now).isEmpty = false)
    (herr : summ_api channel.name = .error e) :
    (∃ entry, lookupKV channel.name
        (process_channel summ_api now ctx channel).channel_summaries = some entry ∧
      entry.summary = "Error summarizing channel: " ++ e ∧ entry.cache_status = "miss") ∧
    (process_channel summ_api now ctx channel).cache_misses = ctx.cache_misses + 1 ∧
    (∃ row, lookupKV channel.channel_id
        (process_channel summ_api now ctx channel).db.channel_summaries = some row ∧
      row.summary = "Error summarizing channel: " ++ e) := by
  have hrec' : ¬((ctx.db.get_recent_messages channel.channel_id 7 now).isEmpty = true) := by
    rw [hrecent]
    exact Bool.false_ne_true
  unfold process_channel summarize_channel
  rw [hmiss]
  dsimp only
  simp only [if_neg hrec', herr]
  rw [if_neg (err_prefix_ne_empty e)]
  refine ⟨?_, rfl, ?_⟩
  · exact ⟨_, lookupKV_dictInsert_self .., rfl, rfl⟩
  · exact ⟨_, lookupKV_dictInsert_self .., rfl⟩

/-- C3 witness: the amended behaviour at the concrete counterexample
input — the error string is returned as the channel's summary. -/
theorem C3_summarizer_error_not_skipped_witness :
    ∃ entry, lookupKV "general"
        (process_channel c3api 200
          { channel_summaries := [], cache_hits := 0, cache_misses := 0, db := c3db
            api_calls := [] }
          ⟨"c1", "general", some 50⟩).channel_summaries = some entry ∧
      entry.summary = "Error summarizing channel: " ++ "boom" ∧
      entry.cache_status = "miss" :=
  (C3_summarizer_error_not_skipped c3api 200
    { channel_summaries := [], cache_hits := 0, cache_misses := 0, db := c3db
      api_calls := [] }
    ⟨"c1", "general", some 50⟩ "boom" (by decide) (by decide) rfl).1

/-- C5: for every channel iterated by the summarize loop — (a) when a
valid cached summary exists, it is returned under the channel's name
tagged `cache_status = "hit"`, the hit counter increments, no external
summarizer call is made and the store is untouched; (b) when there is no
valid cached summary and the recent-message window is empty, the loop
state is completely unchanged (the channel is omitted and no summarizer
call is made); (c) the external summarizer is invoked only on a cache
miss with a non-empty recent-message window. -/
theorem C5_resolver_branches (summ_api : String → Except String String) (now : Int)
    (ctx : SummCtx) (channel : ChannelListing) :
    (∀ cs ls, ctx.db.get_cached_summary channel.channel_id 24 now = some (cs, ls) →
      lookupKV channel.name (process_channel summ_api now ctx channel).channel_summaries
        = some { summary := cs.summary, message_count := cs.message_count
                 last_active := cs.last_active, total_participants := cs.total_participants
                 cache_status := "hit", generated_at := cs.generated_at } ∧
      (process_channel summ_api now ctx channel).cache_hits = ctx.cache_hits + 1 ∧
      (process_channel summ_api now ctx channel).api_calls = ctx.api_calls ∧
      (process_channel summ_api now ctx channel).db = ctx.db) ∧
    (ctx.db.get_cached_summary channel.channel_id 24 now = none →
      (ctx.db.get_recent_messages channel.channel_id 7 now).isEmpty = true →
      process_channel summ_api now ctx channel = ctx) ∧
    ((process_channel summ_api now ctx channel).api_calls ≠ ctx.api_calls →
      ctx.db.get_cached_summary channel.channel_id 24 now = none ∧
      (ctx.db.get_recent_messages channel.channel_id 7 now).isEmpty = false) := by
  unfold process_channel
  rcases h : ctx.db.get_cached_summary channel.channel_id 24 now with _ | ⟨cs', ls'⟩
  · dsimp only
    by_cases hre : (ctx.db.get_recent_messages channel.channel_id 7 now).isEmpty = true
    · rw [if_pos hre]
      refine ⟨?_, ?_, ?_⟩
      · intro cs ls hh
        cases hh
      · intro _ _
        rfl
      · intro hne
        exact absurd rfl hne
    · rw [if_neg hre]
      refine ⟨?_, ?_, ?_⟩
      · intro cs ls hh
        cases hh
      · intro _ hh
        exact absurd hh hre
      · intro hne
        exact ⟨rfl, Bool.eq_false_iff.mpr hre⟩
  · dsimp only
    refine ⟨?_, ?_, ?_⟩
    · intro cs ls hh
      have h1 : cs' = cs := congrArg Prod.fst (Option.some.inj hh)
      subst h1
      exact ⟨lookupKV_dictInsert_self .., rfl, rfl, rfl⟩
    · intro hh
      cases hh
    · intro hne
      exact absurd rfl hne

/-- Store, loop state and summarizer behaviour used to witness C5: one
channel with a valid cached summary. -/
def c5db : DiscordDB :=
  { sync_status := [("c1", 50)]
    channel_summaries :=
      [("c1", { summary := "sum", message_count := 2, total_participants := 3, last_active := 90
                generated_at := 100, message_window_start := 0, message_window_end := 100 })] }

def c5ctx : SummCtx :=
  { channel_summaries := [], cache_hits := 0, cache_misses := 0, db := c5db, api_calls := [] }

def c5api : String → Except String String := fun _ => .ok "fresh"

/-- C5 witness: a concrete cache hit is served from the cache with no
summarizer call. -/
theorem C5_resolver_branches_witness :
    lookupKV "general"
        (process_channel c5api 200 c5ctx ⟨"c1", "general", some 50⟩).channel_summaries
      = some { summary := "sum", message_count := 2, last_active := 90
               total_participants := 3, cache_status := "hit", generated_at := 100 } ∧
    (process_channel c5api 200 c5ctx ⟨"c1", "general", some 50⟩).api_calls = [] :=
  have h := (C5_resolver_branches c5api 200 c5ctx ⟨"c1", "general", some 50⟩).1
    { summary := "sum", message_count := 2, total_participants := 3, last_active := 90
      generated_at := 100, message_window_start := 0, message_window_end := 100 } 50
    (by decide)
  ⟨h.1, h.2.2.1⟩

/-- Store for the C10 scenario: two distinct channels of the same server
share the name "general"; both have recent messages and no cached
summary, so both produce (and cache) a summary. -/
def c10db : DiscordDB :=
  { channels := [("c1", ⟨"s", "general"⟩), ("c2", ⟨"s", "general"⟩)]
    messages := [("m1", ⟨"c1", "alice", "a", 100⟩), ("m2", ⟨"c2", "bob", "b", 100⟩),
                 ("m3", ⟨"c2", "carol", "c", 101⟩)] }

def c10api : String → Except String String := fun _ => .ok "sum"

/-- C10: the summarize response is keyed by channel **name**: with two
channels named "general" that are both summarized (two cache misses, two
rows written to the summary cache), the response holds a single entry for
"general" — the one from the last-processed channel (`c2`, with 2
messages) — so `active_channels = 1` is smaller than the 2 channels
actually summarized and cached, while `total_channels_analyzed = 2`. -/
theorem C10_response_keyed_by_name :
    (get_summary c10api c10db "s" 200).1.channels
      = [("general", { summary := "sum", message_count := 2, last_active := 101
                       total_participants := 2, cache_status := "miss", generated_at := 200 })] ∧
    (get_summary c10api c10db "s" 200).1.active_channels = 1 ∧
    (get_summary c10api c10db "s" 200).1.cache_misses = 2 ∧
    (lookupKV "c1" (get_summary c10api c10db "s" 200).2.1.channel_summaries).isSome = true ∧
    (lookupKV "c2" (get_summary c10api c10db "s" 200).2.1.channel_summaries).isSome = true ∧
    (get_summary c10api c10db "s" 200).1.total_channels_analyzed = 2 := by
  refine ⟨?_, ?_, ?_, ?_, ?_, ?_⟩ <;> decide

end DiscordTT
